import Mathlib

/-!
Verification of the task-orchestration and command-execution engine of the
Gemini-Terminal-Assistant repository. The Python sources are shallowly
embedded: each class becomes a structure or inductive type, mutation becomes
explicit state passing, subprocess and network effects are supplied by
environment parameters, and exceptions become `Except` values. Wall-clock
durations are modelled as natural numbers of abstract time units.
-/

set_option autoImplicit false
set_option maxRecDepth 4000

/-! ## Shared process model

A child process run is abstracted by its observable outcome: it either
completes with an exit code, output and duration, or the wall-clock deadline
expires first (`timedOut`, carrying the output the process produced before
being killed — output that `Popen.communicate` discards when it raises
`TimeoutExpired`), or the spawn/communication raises an exception
(`raised`), as for a missing executable or denied permission. -/
inductive ProcOutcome where
  | completed (exitCode : Int) (stdoutText stderrText : String) (duration : Nat)
  | timedOut (bufferedStdout bufferedStderr : String)
  | raised (msg : String) (duration : Nat)
deriving Repr, DecidableEq

/-! ## String primitives

Several core `String` operations are implemented on byte positions and do
not reduce inside the kernel; the embedding uses the following
character-list equivalents (same semantics on the Python side:
`startswith`, slicing, `strip`, `lower`, `split(sep)`, `split()`,
`replace`, `in`). -/

/-- `s.startswith(pre)`. -/
def strStartsWith (s pre : String) : Bool :=
  pre.data.isPrefixOf s.data

/-- The slice `s[n:]`. -/
def strDrop (s : String) (n : Nat) : String :=
  String.mk (s.data.drop n)

/-- `s.strip()`: remove whitespace from both ends. -/
def pyStrip (s : String) : String :=
  String.mk
    (((s.data.dropWhile Char.isWhitespace).reverse.dropWhile
      Char.isWhitespace).reverse)

/-- `s.lower()` (ASCII view). -/
def strToLower (s : String) : String :=
  String.mk (s.data.map Char.toLower)

/-- Left-to-right non-overlapping split on a non-empty separator. -/
def splitOnCharsAux (sep : List Char) : Nat → List Char → List Char →
    List String
  | 0, acc, _ => [String.mk acc.reverse]
  | _ + 1, acc, [] => [String.mk acc.reverse]
  | fuel + 1, acc, c :: rest =>
    if sep.isPrefixOf (c :: rest) then
      String.mk acc.reverse ::
        splitOnCharsAux sep fuel [] ((c :: rest).drop sep.length)
    else splitOnCharsAux sep fuel (c :: acc) rest

/-- `s.split(sep)` for a non-empty separator (`[s]` if the separator is
empty, where Python would raise). -/
def strSplitOn (s sep : String) : List String :=
  if sep.data.isEmpty then [s]
  else splitOnCharsAux sep.data (s.data.length + 1) [] s.data

/-- `s.replace(pat, repl)`. -/
def strReplace (s pat repl : String) : String :=
  if pat.data.isEmpty then s
  else String.intercalate repl (strSplitOn s pat)

/-- `s.split()`: split on whitespace runs, discarding empty pieces. -/
def splitWhitespaceAux : List Char → List Char → List String
  | acc, [] => if acc.isEmpty then [] else [String.mk acc.reverse]
  | acc, c :: rest =>
    if c.isWhitespace then
      if acc.isEmpty then splitWhitespaceAux [] rest
      else String.mk acc.reverse :: splitWhitespaceAux [] rest
    else splitWhitespaceAux (c :: acc) rest

/-- `s.split()` on a string. -/
def splitWhitespace (s : String) : List String :=
  splitWhitespaceAux [] s.data

namespace CmdChain

/-- Step status, from `src/utils/command_chain.py` (`CommandStep.status` is one
of the strings pending/running/success/error/skipped). -/
inductive StepStatus where
  | pending
  | running
  | success
  | error
  | skipped
deriving Repr, DecidableEq

/-- The result dictionary attached to a step. Executed steps always carry an
integer exit code; a skipped step's result dictionary stores `None` for
`exit_code` and omits `command` / `execution_time`, hence the `Option`s. -/
structure ChainResult where
  exit_code : Option Int
  stdout : String
  stderr : String
  command : Option String
  execution_time : Option Nat
deriving Repr, DecidableEq

/-- `CommandStep` from `src/utils/command_chain.py` (the derived default
`name` built from `hash(command)` is taken as given data). -/
structure CommandStep where
  command : String
  name : String
  condition : Option String
  timeout : Nat
  shell : Bool
  cwd : Option String
  status : StepStatus
  result : Option ChainResult
deriving Repr, DecidableEq

/-- Placeholder used to read `self.steps[-2]`; every use is guarded by a
length check, so the placeholder value is never observed. -/
def dummyStep : CommandStep :=
  { command := "", name := "", condition := none, timeout := 30,
    shell := true, cwd := none, status := .pending, result := none }

/-- `CommandChain` state: named step list plus the chain-local variable
table (a Python dict, modelled as an insertion-ordered association list). -/
structure CommandChain where
  name : String
  steps : List CommandStep
  working_dir : String
  varTable : List (String × String)
deriving Repr, DecidableEq

/-- Python `\w` word characters (ASCII view): letters, digits, underscore. -/
def isWordChar (c : Char) : Bool := c.isAlphanum || c == '_'

/-- One pass of `re.sub(r'\$name\b', repl, text)` for a literal variable
name: replace `$name` when not followed by a word character. Fuel-indexed;
each step consumes at least one character, so `text.length + 1` fuel is
always enough. -/
def replaceDollarAux (name repl : String) : Nat → List Char → List Char
  | 0, cs => cs
  | _ + 1, [] => []
  | fuel + 1, c :: cs =>
    if c == '$' && List.isPrefixOf name.data cs &&
        (match cs.drop name.data.length with
         | [] => true
         | d :: _ => !isWordChar d) then
      repl.data ++ replaceDollarAux name repl fuel (cs.drop name.data.length)
    else
      c :: replaceDollarAux name repl fuel cs

/-- Replace `$name` (with a word-boundary after it) by `repl` in `text`. -/
def expandDollarVar (name repl text : String) : String :=
  String.mk (replaceDollarAux name repl (text.length + 1) text.data)

/-- `CommandChain.expand_variables`: first substitute every occurrence of
each variable in brace form, then in bare-dollar form, folding over the
variable table in insertion order as the Python loops do. -/
def expand_variables (chain : CommandChain) (text : String) : String :=
  let r1 := chain.varTable.foldl
    (fun acc nv => strReplace acc ("$\x7b" ++ nv.1 ++ "\x7d") nv.2) text
  chain.varTable.foldl (fun acc nv => expandDollarVar nv.1 nv.2 acc) r1

/-- The step the source's `self.steps[-2]` denotes (guarded by
`len(self.steps) >= 2` at every use). -/
def prevStep (chain : CommandChain) : CommandStep :=
  chain.steps.getD (chain.steps.length - 2) dummyStep

/-- `CommandChain.evaluate_condition`. A `ValueError` from `int(value)` and
a `TypeError` from ordering `None` against an int propagate as `.error`,
exactly where the Python raises. Note the source consults
`self.steps[-2]` — the second-to-last step of the whole chain — whatever
step is currently being considered. -/
def evaluate_condition (chain : CommandChain) (condition : Option String) :
    Except String Bool :=
  match condition with
  | none => .ok true
  | some cond =>
    if cond == "" then .ok true
    else
      let expanded := expand_variables chain cond
      if expanded == "success" then
        if chain.steps.length < 2 then .ok true
        else .ok ((prevStep chain).status == .success)
      else if expanded == "error" then
        if chain.steps.length < 2 then .ok false
        else .ok ((prevStep chain).status == .error)
      else if strStartsWith expanded "exit_code " then
        if chain.steps.length < 2 then .ok false
        else
          match (prevStep chain).result with
          | none => .ok false
          | some r =>
            let parts := splitWhitespace expanded
            if parts.length ≠ 3 then .ok false
            else
              let op := parts.getD 1 ""
              let value := parts.getD 2 ""
              match value.toInt? with
              | none => .error "ValueError: invalid literal for int"
              | some v =>
                let ec := r.exit_code
                if op == "==" then .ok (ec == some v)
                else if op == "!=" then .ok (ec != some v)
                else
                  match ec with
                  | none =>
                    if op == "<" || op == ">" || op == "<=" || op == ">=" then
                      .error "TypeError: ordering None against int"
                    else .ok true
                  | some e =>
                    if op == "<" then .ok (e < v)
                    else if op == ">" then .ok (e > v)
                    else if op == "<=" then .ok (e ≤ v)
                    else if op == ">=" then .ok (e ≥ v)
                    else .ok true
      else .ok true

/-- `CommandChain._execute_command`: spawn via the environment and shape the
result dictionary. On `TimeoutExpired` the process is killed and the record
carries exit code −1, the explanatory message, an execution time equal to
the step timeout, and an empty stdout — the output buffered before the kill
(`ProcOutcome.timedOut`'s payload) is discarded. A spawn exception becomes
an exit-code −1 record with the wrapped message. -/
def execChainCommand (run : String → ProcOutcome) (command : String)
    (step : CommandStep) : ChainResult :=
  match run command with
  | .completed code out err dur =>
    { exit_code := some code, stdout := out, stderr := err,
      command := some command, execution_time := some dur }
  | .timedOut _ _ =>
    { exit_code := some (-1), stdout := "",
      stderr := "Command timed out after " ++ toString step.timeout ++ " seconds",
      command := some command, execution_time := some step.timeout }
  | .raised msg dur =>
    { exit_code := some (-1), stdout := "",
      stderr := "Error executing command: " ++ msg,
      command := some command, execution_time := some dur }

/-- Scan for the first `)` on the current line, as the non-greedy `(.*?)\)`
does (Python `.` does not match a newline). Returns the captured text and
the remainder after the `)`. -/
def takeUntilClose : List Char → Option (List Char × List Char)
  | [] => none
  | c :: rest =>
    if c == ')' then some ([], rest)
    else if c == '\n' then none
    else
      match takeUntilClose rest with
      | some (cmd, rem) => some (c :: cmd, rem)
      | none => none

/-- Left-to-right scan for `re.findall(r'(\w+)=\$\((.*?)\)', s)`: a maximal
word-character run, then the literal `=$(`, then the shortest same-line run
to a closing `)`. `run` accumulates the current word run in reverse. -/
def scanAssignAux : Nat → List Char → List Char → List (String × String)
  | 0, _, _ => []
  | _ + 1, _, [] => []
  | fuel + 1, run, c :: rest =>
    if isWordChar c then scanAssignAux fuel (c :: run) rest
    else if c == '=' && !run.isEmpty &&
        (match rest with
         | '$' :: '(' :: _ => true
         | _ => false) then
      let body := rest.drop 2
      match takeUntilClose body with
      | some (cmd, rem) =>
        (String.mk run.reverse, String.mk cmd) :: scanAssignAux fuel [] rem
      | none => scanAssignAux fuel [] body
    else scanAssignAux fuel [] rest

/-- All `NAME=$(COMMAND)` capture groups occurring in a command string. -/
def findAssignments (s : String) : List (String × String) :=
  scanAssignAux (s.length + 1) [] s.data

/-- Python dict assignment `variables[name] = value` on the
insertion-ordered association list. -/
def setVar (vars : List (String × String)) (name value : String) :
    List (String × String) :=
  if vars.any (fun p => p.1 == name) then
    vars.map (fun p => if p.1 == name then (name, value) else p)
  else vars ++ [(name, value)]

/-- `CommandChain._extract_output_variables` applied to the step at index
`i`: for each `NAME=$(COMMAND)` group in the step's original command text,
if the step succeeded, store the step's trimmed stdout under `NAME`. -/
def extractOutputVariables (chain : CommandChain) (i : Nat) : CommandChain :=
  let step := chain.steps.getD i dummyStep
  (findAssignments step.command).foldl
    (fun ch m =>
      if step.status == .success then
        match step.result with
        | some r => { ch with varTable := setVar ch.varTable m.1 (pyStrip r.stdout) }
        | none => ch
      else ch)
    chain

/-- The aggregate report `CommandChain.execute` returns. The per-step counts
are computed from the full step list (including steps never reached after a
fail-fast break, which remain `pending`). -/
structure ChainReport where
  name : String
  success : Bool
  working_dir : String
  steps_total : Nat
  steps_executed : Nat
  steps_successful : Nat
  steps_failed : Nat
  steps_skipped : Nat
deriving Repr, DecidableEq

/-- One iteration per remaining step of the `for i, step in enumerate(...)`
loop of `CommandChain.execute`, with the in-place status/result mutations
modelled by `List.set` on the carried chain. `fuel` counts the remaining
iterations (the step list's length never changes during the loop), `i` is
the current index. Progress callbacks are display-only and omitted. -/
def executeLoop (run : String → ProcOutcome) (failFast : Bool) :
    Nat → Nat → CommandChain → Bool → Except String (CommandChain × Bool)
  | 0, _, chain, anyErrors => .ok (chain, anyErrors)
  | fuel + 1, i, chain, anyErrors =>
    let step := chain.steps.getD i dummyStep
    match evaluate_condition chain step.condition with
    | .error e => .error e
    | .ok shouldExecute =>
      if !shouldExecute then
        let skippedResult : ChainResult :=
          { exit_code := none, stdout := "",
            stderr := "Step skipped due to condition", command := none,
            execution_time := none }
        let stepSkipped := { step with
          status := StepStatus.skipped, result := some skippedResult }
        executeLoop run failFast fuel (i + 1)
          { chain with steps := chain.steps.set i stepSkipped } anyErrors
      else
        let stepRunning := { step with status := .running }
        let expanded := expand_variables chain step.command
        let result := execChainCommand run expanded stepRunning
        let newStatus : StepStatus :=
          if result.exit_code == some 0 then .success else .error
        let stepDone := { stepRunning with result := some result, status := newStatus }
        let chainAfter := { chain with steps := chain.steps.set i stepDone }
        let anyErrorsAfter := anyErrors || (newStatus == .error)
        let chainVars := extractOutputVariables chainAfter i
        if failFast && (newStatus == .error) then .ok (chainVars, anyErrorsAfter)
        else executeLoop run failFast fuel (i + 1) chainVars anyErrorsAfter

/-- `CommandChain.execute`: run every step in order, honouring conditions
and fail-fast, and return the aggregate report together with the final
chain state (the mutated `self`). An exception escaping
`evaluate_condition` aborts the whole call, as in the source. -/
def CommandChain.execute (run : String → ProcOutcome) (chain : CommandChain)
    (failFast : Bool) : Except String (ChainReport × CommandChain) :=
  match executeLoop run failFast chain.steps.length 0 chain false with
  | .error e => .error e
  | .ok (chainDone, anyErrors) =>
    .ok ({ name := chainDone.name,
           success := !anyErrors,
           working_dir := chainDone.working_dir,
           steps_total := chainDone.steps.length,
           steps_executed :=
             (chainDone.steps.filter (fun s => s.status != .pending)).length,
           steps_successful :=
             (chainDone.steps.filter (fun s => s.status == .success)).length,
           steps_failed :=
             (chainDone.steps.filter (fun s => s.status == .error)).length,
           steps_skipped :=
             (chainDone.steps.filter (fun s => s.status == .skipped)).length },
         chainDone)

end CmdChain

namespace TermAssist

/-- The command-result record of `src/terminal_ai_assistant.py`
(`{command, stdout, stderr, exit_code, execution_time, timestamp}`). -/
structure TAIResult where
  command : String
  stdout : String
  stderr : String
  exit_code : Int
  execution_time : Nat
  timestamp : String
deriving Repr, DecidableEq

/-- Environment for `TerminalAIAssistant.execute_command`: the subprocess
behaviour, the interactive answer consumed by the `ai_ask:` branch and the
wall-clock/timestamp readings the record carries. -/
structure TAIEnv where
  run : String → ProcOutcome
  userAnswer : String
  askDuration : Nat
  timestamp : String

/-- `TerminalAIAssistant.execute_command` (src/terminal_ai_assistant.py,
lines 227-297). An `ai_ask:` command is answered in-process. Any other
command is spawned; on `TimeoutExpired` the process is killed and the
record carries exit code −1, the explanatory message, an execution time
equal to the configured timeout, and empty stdout/stderr — the output the
process produced before the kill is discarded by `communicate`. Any other
exception (including spawn failure) yields an exit-code-1 record carrying
the wrapped OS error message; the function always returns a record, never
a fault. -/
def execute_command (env : TAIEnv) (cfgTimeout : Nat) (command : String) :
    TAIResult :=
  if strStartsWith command "ai_ask:" then
    let question := pyStrip (strDrop command 7)
    { command := command,
      stdout := "Question: " ++ question ++ "\nAnswer: " ++ env.userAnswer,
      stderr := "", exit_code := 0, execution_time := env.askDuration,
      timestamp := env.timestamp }
  else
    match env.run command with
    | .completed code out err dur =>
      { command := command, stdout := out, stderr := err, exit_code := code,
        execution_time := dur, timestamp := env.timestamp }
    | .timedOut _ _ =>
      { command := command, stdout := "",
        stderr := "Command timed out after " ++ toString cfgTimeout ++ " seconds",
        exit_code := -1, execution_time := cfgTimeout,
        timestamp := env.timestamp }
    | .raised msg dur =>
      { command := command, stdout := "",
        stderr := "Exception while executing command: " ++ msg,
        exit_code := 1, execution_time := dur, timestamp := env.timestamp }

/-- Python `sub in s` substring containment. -/
def strContains (s sub : String) : Bool :=
  if sub == "" then true else (strSplitOn s sub).length != 1

/-- Candidate extraction of `TerminalAIAssistant.get_ai_response`
(src/terminal_ai_assistant.py, lines 606-611), given the model's raw
response text: split into non-empty trimmed lines and patch a bare
`git commit` when the task is a commit. -/
def candidateCommands (task : String) (responseText : String) : List String :=
  let commands := ((strSplitOn responseText "\n").map pyStrip).filter
    (fun c => c ≠ "")
  let c0 := commands.headD ""
  if strStartsWith (strToLower task) "commit" && !commands.isEmpty &&
      strContains c0 "git commit" && !strContains c0 "-m" then
    commands.set 0 "git commit -m \"Automatic commit from Terminal AI Assistant\""
  else commands

/-- The response-processing tail of `TerminalAIAssistant.get_ai_response`
(src/terminal_ai_assistant.py, lines 606-627): the candidates from the
model response, then the repeated-failed-command guard of lines 613-627 —
only when the first candidate equals (case-insensitively, trimmed) the
command that just failed is a hardcoded `wmic` fallback substituted, and
only in the chrome-task and process/taskkill special cases. In every other
case, including a first candidate identical to the failed command, the
candidates are returned unchanged. An `IndexError` from the `/IM` parsing
propagates as `.error`. -/
def get_ai_response (task : String) (failed_command : Option String)
    (responseText : String) : Except String (List String) :=
  let commands := candidateCommands task responseText
  match failed_command with
  | none => .ok commands
  | some fc =>
    if !commands.isEmpty &&
        strToLower (pyStrip (commands.headD "")) ==
          strToLower (pyStrip fc) then
      if strContains (strToLower task) "chrome" &&
          (strContains (strToLower task) "close" ||
           strContains (strToLower task) "kill" ||
           strContains (strToLower task) "stop") then
        .ok ["wmic process where name=\x27chrome.exe\x27 delete"]
      else if strContains (strToLower fc) "process" ||
          strContains (strToLower fc) "taskkill" then
        if strContains (strToLower fc) "/im" then
          let parts := strSplitOn fc "/IM"
          if parts.length < 2 then .error "IndexError: list index out of range"
          else
            let words := splitWhitespace (parts.getD 1 "")
            match words with
            | [] => .error "IndexError: list index out of range"
            | w :: _ =>
              let process_name := strReplace (pyStrip w) "\"" ""
              .ok ["wmic process where name=\x27" ++ process_name ++ "\x27 delete"]
        else .ok ["wmic process where name=\x27chrome.exe\x27 delete"]
      else .ok commands
    else .ok commands

end TermAssist

namespace AgentTerm

/-- The command-result record of `src/agent_terminal.py` (same shape as the
assistant's). -/
structure AgentResult where
  command : String
  stdout : String
  stderr : String
  exit_code : Int
  execution_time : Nat
  timestamp : String
deriving Repr, DecidableEq

/-- `TaskState.status` strings. -/
inductive TaskStatus where
  | pending
  | in_progress
  | completed
  | failed
deriving Repr, DecidableEq

/-- The scalar fields of a `TaskState` node (src/agent_terminal.py, lines
87-98). Timestamps are abstract clock readings. -/
structure TaskCore where
  task_id : String
  description : String
  status : TaskStatus
  start_time : Option Nat
  end_time : Option Nat
  command_history : List AgentResult
  output : String
  error : String
deriving Repr, DecidableEq

/-- A `TaskState` node with its owned subtask list. The Python
`parent_task` back-reference is represented structurally: a node's parent
is the node that holds it in `subtasks` (made explicit by the zipper
frames of `AgentContext` below). -/
inductive TaskState where
  | node (core : TaskCore) (subtasks : List TaskState)

def TaskState.core : TaskState → TaskCore
  | .node c _ => c

def TaskState.subtasks : TaskState → List TaskState
  | .node _ s => s

/-- `TaskState.__init__(task_id, description)`: status pending, no
timestamps, empty logs and children. -/
def TaskState.fresh (task_id description : String) : TaskState :=
  .node { task_id := task_id, description := description,
          status := .pending, start_time := none, end_time := none,
          command_history := [], output := "", error := "" } []

/-- `TaskState.start`: mark in_progress and stamp the start time. -/
def TaskState.start (t : TaskState) (now : Nat) : TaskState :=
  .node { t.core with status := .in_progress, start_time := some now }
    t.subtasks

/-- `TaskState.complete`: mark completed, stamp the end time, store output. -/
def TaskState.complete (t : TaskState) (now : Nat) (output : String) :
    TaskState :=
  let c := { t.core with status := TaskStatus.completed, end_time := some now, output := output }
  .node c t.subtasks

/-- `TaskState.fail`: mark failed, stamp the end time, store the error. -/
def TaskState.fail (t : TaskState) (now : Nat) (error : String) : TaskState :=
  let c := { t.core with status := TaskStatus.failed, end_time := some now, error := error }
  .node c t.subtasks

/-- `TaskState.add_subtask`: create a child whose id is the parent id
followed by a dot and the child's 1-based position, append it, and return
the updated parent together with the child. -/
def TaskState.add_subtask (t : TaskState) (description : String) :
    TaskState × TaskState :=
  let child := TaskState.fresh
    (t.core.task_id ++ "." ++ toString (t.subtasks.length + 1)) description
  (.node t.core (t.subtasks ++ [child]), child)

/-- `TaskState.add_command`: append a record to the node's command log. -/
def TaskState.add_command (t : TaskState) (r : AgentResult) : TaskState :=
  .node { t.core with command_history := t.core.command_history ++ [r] }
    t.subtasks

/-- A parent node whose youngest child is the current task: its scalar
fields and its elder children. In the source the current task is always the
most recently appended child of its parent, so no younger siblings exist. -/
structure TaskFrame where
  core : TaskCore
  elder : List TaskState

/-- The current-task pointer as a zipper: the focused node plus the chain
of its ancestors, innermost first. This models the Python pair of
`AgentContext.current_task` and the `parent_task` back-references. -/
structure TaskZipper where
  frames : List TaskFrame
  focus : TaskState

/-- Rebuild the root tree a zipper denotes. -/
def reassemble : List TaskFrame → TaskState → TaskState
  | [], t => t
  | f :: rest, t => reassemble rest (.node f.core (f.elder ++ [t]))

/-- `AgentContext` (src/agent_terminal.py, lines 162-173), restricted to
the fields the engine mutates; conversation history entries are
(role, content, timestamp) triples. -/
structure AgentContext where
  conversation_history : List (String × String × String)
  current_task : Option TaskZipper
  task_history : List TaskState
  current_directory : String
  command_history : List AgentResult
  recent_errors : List (String × String)
  file_access_history : List (String × Nat)

/-- A fresh session context rooted at the given working directory. -/
def AgentContext.fresh (cwd : String) : AgentContext :=
  { conversation_history := [], current_task := none, task_history := [],
    current_directory := cwd, command_history := [], recent_errors := [],
    file_access_history := [] }

/-- Replace the last stored root by the tree the zipper currently denotes.
Python shares the root by reference between `task_history` and
`current_task`; functionally, every mutation through the pointer rewrites
the stored root. -/
def AgentContext.syncRoot (ctx : AgentContext) (z : TaskZipper) :
    List TaskState :=
  ctx.task_history.dropLast ++ [reassemble z.frames z.focus]

/-- `AgentContext.start_task`: number the root by the history length plus
one, start it, point at it, and append it to the history. -/
def AgentContext.start_task (ctx : AgentContext) (description : String)
    (now : Nat) : AgentContext × TaskState :=
  let task_id := toString (ctx.task_history.length + 1)
  let t := (TaskState.fresh task_id description).start now
  ({ ctx with current_task := some { frames := [], focus := t },
              task_history := ctx.task_history ++ [t] }, t)

/-- `AgentContext.start_subtask`: with a current task, add a started child
under it and move the pointer to the child; otherwise do nothing. -/
def AgentContext.start_subtask (ctx : AgentContext) (description : String)
    (now : Nat) : AgentContext × Option TaskState :=
  match ctx.current_task with
  | none => (ctx, none)
  | some z =>
    let child0 := (z.focus.add_subtask description).2
    let child := child0.start now
    let zNew : TaskZipper :=
      { frames := { core := z.focus.core, elder := z.focus.subtasks } :: z.frames,
        focus := child }
    ({ ctx with current_task := some zNew,
                task_history := ctx.syncRoot zNew }, some child)

/-- `AgentContext.complete_current_task`: complete the focused task; when it
has a parent, move the pointer to that parent (with the completed child in
place); a root task has no parent, so the pointer stays on the completed
root. With no current task, do nothing. -/
def AgentContext.complete_current_task (ctx : AgentContext) (output : String)
    (now : Nat) : AgentContext :=
  match ctx.current_task with
  | none => ctx
  | some z =>
    let done := z.focus.complete now output
    match z.frames with
    | [] =>
      let zNew : TaskZipper := { frames := [], focus := done }
      { ctx with current_task := some zNew, task_history := ctx.syncRoot zNew }
    | f :: rest =>
      let zNew : TaskZipper :=
        { frames := rest, focus := .node f.core (f.elder ++ [done]) }
      { ctx with current_task := some zNew, task_history := ctx.syncRoot zNew }

/-- `AgentContext.fail_current_task`: as `complete_current_task`, marking
the focused task failed instead. -/
def AgentContext.fail_current_task (ctx : AgentContext) (error : String)
    (now : Nat) : AgentContext :=
  match ctx.current_task with
  | none => ctx
  | some z =>
    let done := z.focus.fail now error
    match z.frames with
    | [] =>
      let zNew : TaskZipper := { frames := [], focus := done }
      { ctx with current_task := some zNew, task_history := ctx.syncRoot zNew }
    | f :: rest =>
      let zNew : TaskZipper :=
        { frames := rest, focus := .node f.core (f.elder ++ [done]) }
      { ctx with current_task := some zNew, task_history := ctx.syncRoot zNew }

/-- `AgentContext.add_command_to_current_task`: append the record to the
current task's log when one is active, and always to the session-wide log. -/
def AgentContext.add_command_to_current_task (ctx : AgentContext)
    (r : AgentResult) : AgentContext :=
  let ctx1 :=
    match ctx.current_task with
    | none => ctx
    | some z =>
      let zNew : TaskZipper := { z with focus := z.focus.add_command r }
      { ctx with current_task := some zNew, task_history := ctx.syncRoot zNew }
  { ctx1 with command_history := ctx1.command_history ++ [r] }

/-- The `os`/`os.path` primitives `change_directory` consults, supplied by
the environment: home directory, absoluteness test, path join,
`normpath(abspath(...))` resolution, existence and directory tests, and
whether `os.chdir` succeeds on a path. -/
structure Fs where
  home : String
  isAbs : String → Bool
  joinPath : String → String → String
  normAbs : String → String
  pathExists : String → Bool
  isDir : String → Bool
  chdirOk : String → Bool

/-- The resolved target of `AgentTerminal.change_directory` for a given
working directory and argument: `~` expansion, join when relative, then
`normpath(abspath(...))`. -/
def resolveCdTarget (fs : Fs) (cwd path : String) : String :=
  let path := if path == "~" then fs.home else path
  let joined := if fs.isAbs path then path else fs.joinPath cwd path
  fs.normAbs joined

/-- `AgentTerminal.change_directory` (src/agent_terminal.py, lines
1265-1288): returns the new current directory. When the resolved target
does not exist or is not a directory — or `os.chdir` raises — the
working directory is left unchanged (the failure is only printed). -/
def change_directory (fs : Fs) (cwd path : String) : String :=
  let target := resolveCdTarget fs cwd path
  if fs.pathExists target && fs.isDir target then
    if fs.chdirOk target then target else cwd
  else cwd

/-- Outcome of the streaming subprocess portion of
`AgentTerminal.execute_command` (the select/readline loop followed by
`communicate`): the accumulated output lines and exit code; or the tail
`communicate(timeout=5)` expiring (the process is killed and a marker line
is appended to stderr); or a `KeyboardInterrupt` inside the read loop
(exit code 130, partial lines kept); or a `KeyboardInterrupt` outside it;
or any other exception, including spawn failure. -/
inductive AgentProcOutcome where
  | streamed (stdoutLines stderrLines : List String) (exitCode : Int)
      (duration : Nat)
  | tailTimeout (stdoutLines stderrLines : List String) (exitCode : Int)
      (duration : Nat)
  | loopInterrupt (stdoutLines stderrLines : List String) (duration : Nat)
  | outerInterrupt (duration : Nat)
  | raised (msg : String) (duration : Nat)

/-- Environment for `AgentTerminal.execute_command`: filesystem view,
subprocess behaviour, the wall-clock spent in the in-process `cd` branch,
and the timestamp written into records. -/
structure AgentEnv where
  fs : Fs
  run : String → AgentProcOutcome
  elapsedCd : Nat
  timestamp : String

/-- `AgentTerminal.execute_command` (src/agent_terminal.py, lines
1080-1263, on a non-Windows platform so the Windows-only command rewriting
of lines 1050-1078 does not fire). A preliminary all-zero record is logged
to the current task when one is active; a `cd` command is handled
in-process through `change_directory` and reports exit code 0 and a
`Changed directory to ...` message without consulting the subprocess
environment; other commands are spawned, their result logged, and a failed
result with non-empty stderr appended to the recent-error list; an
exception yields an exit-code-1 record with the wrapped message. Returns
the record and the mutated context. -/
def execute_command (env : AgentEnv) (ctx : AgentContext) (command : String) :
    AgentResult × AgentContext :=
  let command_data : AgentResult :=
    { command := command, stdout := "", stderr := "", exit_code := 0,
      execution_time := 0, timestamp := env.timestamp }
  let ctx :=
    if ctx.current_task.isSome then
      ctx.add_command_to_current_task command_data
    else ctx
  if strStartsWith (pyStrip command) "cd " then
    let path := pyStrip (strDrop command 3)
    let pathArg := if path ≠ "" then path else "~"
    let newDir := change_directory env.fs ctx.current_directory pathArg
    let ctx := { ctx with current_directory := newDir }
    ({ command := command, stdout := "Changed directory to " ++ newDir,
       stderr := "", exit_code := 0, execution_time := env.elapsedCd,
       timestamp := env.timestamp }, ctx)
  else
    match env.run command with
    | .streamed outLines errLines code dur =>
      let result : AgentResult :=
        { command := command, stdout := "\n".intercalate outLines,
          stderr := "\n".intercalate errLines, exit_code := code,
          execution_time := dur, timestamp := env.timestamp }
      let ctx := ctx.add_command_to_current_task result
      let ctx :=
        if code ≠ 0 && !errLines.isEmpty then
          { ctx with recent_errors :=
              ctx.recent_errors ++ [(command, "\n".intercalate errLines)] }
        else ctx
      (result, ctx)
    | .tailTimeout outLines errLines code dur =>
      let errLinesAll := errLines ++ ["Command timed out and was terminated"]
      let result : AgentResult :=
        { command := command, stdout := "\n".intercalate outLines,
          stderr := "\n".intercalate errLinesAll, exit_code := code,
          execution_time := dur, timestamp := env.timestamp }
      let ctx := ctx.add_command_to_current_task result
      let ctx :=
        if code ≠ 0 && !errLinesAll.isEmpty then
          { ctx with recent_errors :=
              ctx.recent_errors ++ [(command, "\n".intercalate errLinesAll)] }
        else ctx
      (result, ctx)
    | .loopInterrupt outLines errLines dur =>
      ({ command := command, stdout := "\n".intercalate outLines,
         stderr := "\n".intercalate errLines ++ "\nCommand interrupted by user",
         exit_code := 130, execution_time := dur,
         timestamp := env.timestamp }, ctx)
    | .outerInterrupt dur =>
      ({ command := command, stdout := "",
         stderr := "Command execution interrupted by user", exit_code := 130,
         execution_time := dur, timestamp := env.timestamp }, ctx)
    | .raised msg dur =>
      let emsg := "Exception while executing command: " ++ msg
      let result : AgentResult :=
        { command := command, stdout := "", stderr := emsg, exit_code := 1,
          execution_time := dur, timestamp := env.timestamp }
      let ctx := ctx.add_command_to_current_task result
      let ctx := { ctx with recent_errors := ctx.recent_errors ++ [(command, emsg)] }
      (result, ctx)

end AgentTerm

namespace Verify

/-- The command-result fields `verify_command_execution` reads. -/
structure VResult where
  exit_code : Int
  stdout : String
  stderr : String
deriving Repr, DecidableEq

/-- The `next_action` object of a verification verdict. An absent field in
the parsed JSON is `none`; the empty object `\x7b\x7d` is modelled by all
fields empty/none. -/
structure NextAction where
  action : String
  reason : String
  fallback_command : Option String
deriving Repr, DecidableEq

/-- Diagnostics object; all fields optional. -/
structure Diagnostics where
  is_installed : Option Bool
  error_type : Option String
  suggested_fix : Option String
deriving Repr, DecidableEq

/-- A successfully parsed verification JSON object, with each key
optional (the source reads every key through `dict.get` with a default). -/
structure ParsedVerification where
  success : Option Bool
  system_state : Option String
  next_action : Option NextAction
  diagnostics : Option Diagnostics
deriving Repr, DecidableEq

/-- Outcome of the Gemini call plus JSON extraction inside
`verify_command_execution`'s inner `try`: a parsed object, a
`KeyboardInterrupt`, or any other exception (network failure, malformed
JSON, ...). -/
inductive OracleOutcome where
  | parsed (v : ParsedVerification)
  | interrupted
  | raised (msg : String)
deriving Repr, DecidableEq

/-- The `\x7b\x7d` default for a missing `next_action`. -/
def emptyNextAction : NextAction :=
  { action := "", reason := "", fallback_command := none }

/-- The `\x7b\x7d` default for missing diagnostics. -/
def emptyDiagnostics : Diagnostics :=
  { is_installed := none, error_type := none, suggested_fix := none }

/-- The verdict tuple `(success, system_state, next_action, diagnostics)`. -/
structure Verdict where
  success : Bool
  system_state : String
  next_action : NextAction
  diagnostics : Diagnostics
deriving Repr, DecidableEq

/-- `AgentTerminal.verify_command_execution` (src/agent_terminal.py, lines
746-793). When the Oracle call (or parsing) raises — or is interrupted —
the structural fallback verdict is returned: success iff the result's exit
code is 0, and the next action is `continue` on exit code 0 and `skip`
otherwise. The outer `except` of lines 786-793 is unreachable: everything
between the two `try`s is pure construction of the default values. -/
def verify_command_execution (oracle : OracleOutcome) (result : VResult) :
    Verdict :=
  let default_success := result.exit_code == 0
  let default_state := "Command executed, but verification unavailable."
  let default_action : NextAction :=
    { action := if default_success then "continue" else "skip",
      reason := "API verification unavailable, decision based on exit code",
      fallback_command := none }
  let default_diagnostics := emptyDiagnostics
  match oracle with
  | .parsed v =>
    { success := v.success.getD false,
      system_state := v.system_state.getD "",
      next_action := v.next_action.getD emptyNextAction,
      diagnostics := v.diagnostics.getD emptyDiagnostics }
  | .interrupted =>
    { success := default_success, system_state := default_state,
      next_action := default_action, diagnostics := default_diagnostics }
  | .raised _ =>
    { success := default_success, system_state := default_state,
      next_action := default_action, diagnostics := default_diagnostics }

end Verify

namespace OneShot

/-- Python `try/finally` value semantics for a function body: a `return`
executed in the `finally` block overrides whatever the `try`/`except` body
returned (or raised). `none` means the block falls through without
returning. -/
def tryFinallyValue (tryVal : Option Int) (finallyVal : Option Int) :
    Option Int :=
  match finallyVal with
  | some v => some v
  | none => tryVal

/-- The `try`/`except` body of `run_one_shot` (src/one_shot.py, lines
120-147): cancellation before processing returns 1; a raising
`agent.initialize()` or `agent.process_task(...)` lands in the `except`
and returns 1; cancellation observed after processing returns 1; otherwise
the body falls through (no return) after printing the success message. -/
def runOneShotBody (cancelledBefore : Bool) (initOutcome : Except String Unit)
    (processOutcome : Except String Unit) (cancelledAfter : Bool) :
    Option Int :=
  match initOutcome with
  | .error _ => some 1
  | .ok _ =>
    if cancelledBefore then some 1
    else
      match processOutcome with
      | .error _ => some 1
      | .ok _ => if cancelledAfter then some 1 else none

/-- `run_one_shot` (src/one_shot.py, lines 106-155): its `finally` block
(lines 149-155) ends in `return 0`, which by Python semantics overrides
every `return 1` of the body above, so the coroutine's value — and hence
the `sys.exit` status of a one-shot invocation that reaches it — is 0 on
every path, including errors and cancellation during processing. -/
def run_one_shot (cancelledBefore : Bool) (initOutcome : Except String Unit)
    (processOutcome : Except String Unit) (cancelledAfter : Bool) :
    Option Int :=
  tryFinallyValue
    (runOneShotBody cancelledBefore initOutcome processOutcome cancelledAfter)
    (some 0)

/-- Top-level names defined by `src/agent_terminal.py` (its classes and
module-level functions). `one_shot.py` executes
`from agent_terminal import TerminalAgent`, which raises `ImportError`
unless `TerminalAgent` is among them. -/
def agentTerminalTopLevelNames : List String :=
  ["init_gemini", "TaskState", "AgentContext", "AgentTerminal"]

/-- The `__main__` block of `src/one_shot.py` (lines 157-165) combined with
the module-level import guard (lines 98-103): a failing import exits 1
before any processing; otherwise the exit status is `run_one_shot`'s value. -/
def oneShotExitCode (cancelledBefore : Bool) (initOutcome : Except String Unit)
    (processOutcome : Except String Unit) (cancelledAfter : Bool) : Int :=
  if !(agentTerminalTopLevelNames.contains "TerminalAgent") then 1
  else
    match run_one_shot cancelledBefore initOutcome processOutcome cancelledAfter with
    | some v => v
    | none => 0

end OneShot

/-! ## Claims -/

/-- C1: whenever the Oracle verification call fails (the model call raises,
or is interrupted), `verify_command_execution` returns the structural
fallback verdict: success holds iff the result's exit code is 0, and the
next action is `continue` exactly on exit code 0 and `skip` on a nonzero
exit code — never `abort`. -/
theorem C1_oracle_failure_structural_fallback
    (oracle : Verify.OracleOutcome) (result : Verify.VResult)
    (hfail : oracle = .interrupted ∨ ∃ m, oracle = .raised m) :
    ((Verify.verify_command_execution oracle result).success = true ↔
      result.exit_code = 0) ∧
    (result.exit_code = 0 →
      (Verify.verify_command_execution oracle result).next_action.action =
        "continue") ∧
    (result.exit_code ≠ 0 →
      (Verify.verify_command_execution oracle result).next_action.action =
        "skip") ∧
    (Verify.verify_command_execution oracle result).next_action.action ≠
      "abort" := by
  have hcases : ∀ (o : Verify.OracleOutcome), o = .interrupted ∨
      (∃ m, o = .raised m) →
      Verify.verify_command_execution o result =
        Verify.verify_command_execution .interrupted result := by
    intro o ho
    rcases ho with h | ⟨m, h⟩ <;> subst h <;> rfl
  rw [hcases oracle hfail]
  unfold Verify.verify_command_execution
  by_cases h : result.exit_code = 0
  · simp [h]
  · simp [h]

/-- Witness for C1 at exit codes 0 and 1 with a raising Oracle. -/
theorem C1_oracle_failure_structural_fallback_witness :
    (Verify.verify_command_execution (.raised "network down")
      { exit_code := 0, stdout := "ok", stderr := "" }).next_action.action =
      "continue" ∧
    (Verify.verify_command_execution (.raised "network down")
      { exit_code := 1, stdout := "", stderr := "boom" }).next_action.action =
      "skip" := by
  constructor
  · exact (C1_oracle_failure_structural_fallback (.raised "network down")
      { exit_code := 0, stdout := "ok", stderr := "" }
      (Or.inr ⟨"network down", rfl⟩)).2.1 rfl
  · exact (C1_oracle_failure_structural_fallback (.raised "network down")
      { exit_code := 1, stdout := "", stderr := "boom" }
      (Or.inr ⟨"network down", rfl⟩)).2.2.1 (by decide)

/-- C9: the one-shot invocation does not exit nonzero on failure. The
`finally` block of `run_one_shot` ends in `return 0`, which overrides the
`return 1` of every error and cancellation path, so the coroutine yields 0
for all outcomes — in particular when processing raises; moreover the
module-level `from agent_terminal import TerminalAgent` can never succeed
(the class is named `AgentTerminal`), so the script as shipped always
exits 1, even for a task that would complete. -/
theorem C9_one_shot_exit_status :
    OneShot.run_one_shot false (.ok ()) (.error "processing failed") false =
      some 0 ∧
    (∀ (b a : Bool) (i p : Except String Unit),
      OneShot.run_one_shot b i p a = some 0) ∧
    OneShot.agentTerminalTopLevelNames.contains "TerminalAgent" = false ∧
    (∀ (b a : Bool) (i p : Except String Unit),
      OneShot.oneShotExitCode b i p a = 1) := by
  refine ⟨rfl, ?_, by decide, ?_⟩
  · intro b a i p
    rfl
  · intro b a i p
    unfold OneShot.oneShotExitCode
    simp
    intro h
    simp [OneShot.agentTerminalTopLevelNames] at h

/-- A pending step for the C2 scenario chain. -/
def c2step (c n : String) (cond : Option String) : CmdChain.CommandStep :=
  { command := c, name := n, condition := cond, timeout := 30, shell := true,
    cwd := none, status := .pending, result := none }

/-- Subprocess behaviour for the C2 scenario: step A's command fails with
exit code 1, every other command succeeds. -/
def c2run : String → ProcOutcome :=
  fun c => if c == "cmdA" then .completed 1 "" "boom" 1 else .completed 0 "" "" 1

/-- The three-step chain `[A; B with condition "error"; C with condition
"success"]` of the claim. -/
def c2chain : CmdChain.CommandChain :=
  { name := "c2", working_dir := "/w", varTable := [],
    steps := [c2step "cmdA" "A" none, c2step "cmdB" "B" (some "error"),
              c2step "cmdC" "C" (some "success")] }

/-- C2: executing the chain `[A; B condition "error"; C condition
"success"]` in continue-through mode with A failing leaves the statuses
`[error, skipped, skipped]`: B does NOT execute, although the claim (and
the comments inside `evaluate_condition` itself) say its `error` condition
refers to the immediately preceding step A, which failed. The cause is
that `evaluate_condition` reads `self.steps[-2]` — the second-to-last step
of the whole chain — so B's condition consults B's own still-pending
status and C's condition consults the now-skipped B. -/
theorem C2_condition_misindexed_B_skipped :
    (CmdChain.CommandChain.execute c2run c2chain false).map
      (fun p => p.2.steps.map CmdChain.CommandStep.status) =
    Except.ok [CmdChain.StepStatus.error, CmdChain.StepStatus.skipped,
      CmdChain.StepStatus.skipped] := by
  rfl

/-- Environment for the C3 counterexample: a command that is still running
at the deadline, having already produced the output line
`partial out text`. -/
def c3env : TermAssist.TAIEnv :=
  { run := fun _ => .timedOut "partial out text" "", userAnswer := "",
    askDuration := 0, timestamp := "t0" }

/-- C3 counterexample: a command given a 1-second timeout that is killed at
the deadline yields a record whose stdout is empty — the partial output
(`partial out text`) the process had produced is NOT retained, contrary to
the claim. The sentinel exit code and execution time do match. -/
theorem C3_partial_output_not_retained :
    (TermAssist.execute_command c3env 1 "sleep 5").stdout = "" ∧
    (TermAssist.execute_command c3env 1 "sleep 5").stdout ≠ "partial out text" ∧
    (TermAssist.execute_command c3env 1 "sleep 5").exit_code = -1 ∧
    (TermAssist.execute_command c3env 1 "sleep 5").execution_time = 1 := by
  decide

/-- C3 as amended: when the child process has not exited at the deadline,
both executors kill it and return a record with the timeout sentinel exit
code −1, the explanatory `Command timed out after N seconds` message, and
an execution time equal to the configured timeout — but with EMPTY stdout:
the partial output collected up to that point is discarded, not retained. -/
theorem C3_timeout_record_shape :
    (∀ (env : TermAssist.TAIEnv) (cfg : Nat) (command bout berr : String),
      env.run command = .timedOut bout berr →
      strStartsWith command "ai_ask:" = false →
      TermAssist.execute_command env cfg command =
        { command := command, stdout := "",
          stderr := "Command timed out after " ++ toString cfg ++ " seconds",
          exit_code := -1, execution_time := cfg,
          timestamp := env.timestamp }) ∧
    (∀ (run : String → ProcOutcome) (command bout berr : String)
        (step : CmdChain.CommandStep),
      run command = .timedOut bout berr →
      CmdChain.execChainCommand run command step =
        { exit_code := some (-1), stdout := "",
          stderr := "Command timed out after " ++ toString step.timeout ++
            " seconds",
          command := some command, execution_time := some step.timeout }) := by
  constructor
  · intro env cfg command bout berr hrun hask
    unfold TermAssist.execute_command
    rw [hask]
    simp [hrun]
  · intro run command bout berr step hrun
    unfold CmdChain.execChainCommand
    rw [hrun]

/-- Witness for C3's amended theorem at a concrete timing-out command. -/
theorem C3_timeout_record_shape_witness :
    TermAssist.execute_command c3env 1 "sleep 5" =
      { command := "sleep 5", stdout := "",
        stderr := "Command timed out after 1 seconds", exit_code := -1,
        execution_time := 1, timestamp := "t0" } ∧
    CmdChain.execChainCommand (fun _ => .timedOut "late" "") "sleep 5"
      (c2step "sleep 5" "S" none) =
      { exit_code := some (-1), stdout := "",
        stderr := "Command timed out after 30 seconds",
        command := some "sleep 5", execution_time := some 30 } := by
  constructor
  · exact C3_timeout_record_shape.1 c3env 1 "sleep 5" "partial out text" ""
      rfl (by decide)
  · exact C3_timeout_record_shape.2 (fun _ => .timedOut "late" "") "sleep 5"
      "late" "" (c2step "sleep 5" "S" none) rfl

/-- A filesystem view with POSIX-style absoluteness, identity resolution
and no existing directories at all. -/
def emptyFs : AgentTerm.Fs :=
  { home := "/root", isAbs := fun p => strStartsWith p "/",
    joinPath := fun a b => a ++ "/" ++ b, normAbs := fun p => p,
    pathExists := fun _ => false, isDir := fun _ => false,
    chdirOk := fun _ => true }

/-- C7: when the child process cannot be spawned (or any other exception
escapes the spawn/communication), both executors return a result record
with exit code 1 and the wrapped OS error message in the standard-error
field. No exception propagates: both embeddings are total functions into
result records, mirroring the enclosing `except Exception` handlers. -/
theorem C7_launch_failure_result_record :
    (∀ (env : TermAssist.TAIEnv) (cfg : Nat) (command msg : String)
        (dur : Nat),
      env.run command = .raised msg dur →
      strStartsWith command "ai_ask:" = false →
      TermAssist.execute_command env cfg command =
        { command := command, stdout := "",
          stderr := "Exception while executing command: " ++ msg,
          exit_code := 1, execution_time := dur,
          timestamp := env.timestamp }) ∧
    (∀ (env : AgentTerm.AgentEnv) (ctx : AgentTerm.AgentContext)
        (command msg : String) (dur : Nat),
      env.run command = .raised msg dur →
      strStartsWith (pyStrip command) "cd " = false →
      (AgentTerm.execute_command env ctx command).1 =
        { command := command, stdout := "",
          stderr := "Exception while executing command: " ++ msg,
          exit_code := 1, execution_time := dur,
          timestamp := env.timestamp }) := by
  constructor
  · intro env cfg command msg dur hrun hask
    unfold TermAssist.execute_command
    rw [hask]
    simp [hrun]
  · intro env ctx command msg dur hrun hcd
    unfold AgentTerm.execute_command
    rw [hcd]
    simp [hrun]

/-- Witness for C7: a command whose spawn raises `No such file or
directory` yields the exit-code-1 record from both executors. -/
theorem C7_launch_failure_result_record_witness :
    TermAssist.execute_command
      { run := fun _ => .raised "No such file or directory" 0,
        userAnswer := "", askDuration := 0, timestamp := "t0" } 30 "nosuch" =
      { command := "nosuch", stdout := "",
        stderr := "Exception while executing command: No such file or directory",
        exit_code := 1, execution_time := 0, timestamp := "t0" } ∧
    (AgentTerm.execute_command
      { fs := emptyFs,
        run := fun _ => .raised "No such file or directory" 0,
        elapsedCd := 0, timestamp := "t0" }
      (AgentTerm.AgentContext.fresh "/w") "nosuch").1 =
      { command := "nosuch", stdout := "",
        stderr := "Exception while executing command: No such file or directory",
        exit_code := 1, execution_time := 0, timestamp := "t0" } := by
  constructor
  · exact C7_launch_failure_result_record.1
      { run := fun _ => .raised "No such file or directory" 0,
        userAnswer := "", askDuration := 0, timestamp := "t0" } 30 "nosuch"
      "No such file or directory" 0 rfl (by decide)
  · exact C7_launch_failure_result_record.2
      { fs := emptyFs,
        run := fun _ => .raised "No such file or directory" 0,
        elapsedCd := 0, timestamp := "t0" }
      (AgentTerm.AgentContext.fresh "/w") "nosuch"
      "No such file or directory" 0 rfl (by decide)

/-- Appending a command record to the context changes neither the working
directory nor the recent-error list. -/
theorem add_command_preserves_dir_and_errors
    (ctx : AgentTerm.AgentContext) (r : AgentTerm.AgentResult) :
    (ctx.add_command_to_current_task r).current_directory =
      ctx.current_directory ∧
    (ctx.add_command_to_current_task r).recent_errors = ctx.recent_errors := by
  unfold AgentTerm.AgentContext.add_command_to_current_task
  cases ctx.current_task <;> simp

/-- C10: an intercepted `cd <path>` command is answered in-process: the
record reports exit code 0 with a `Changed directory to ...` message, the
result does not depend on the subprocess environment (no shell is
spawned), and when the resolved target does not name an existing directory
the context's working directory is left unchanged. -/
theorem C10_cd_interception (env : AgentTerm.AgentEnv)
    (ctx : AgentTerm.AgentContext) (command : String)
    (hcd : strStartsWith (pyStrip command) "cd " = true)
    (hpath : pyStrip (strDrop command 3) ≠ "") :
    (AgentTerm.execute_command env ctx command).1.exit_code = 0 ∧
    (AgentTerm.execute_command env ctx command).1.stdout =
      "Changed directory to " ++
        AgentTerm.change_directory env.fs ctx.current_directory
          (pyStrip (strDrop command 3)) ∧
    ((AgentTerm.execute_command env ctx command).2).current_directory =
      AgentTerm.change_directory env.fs ctx.current_directory
        (pyStrip (strDrop command 3)) ∧
    (∀ run2 : String → AgentTerm.AgentProcOutcome,
      AgentTerm.execute_command { env with run := run2 } ctx command =
        AgentTerm.execute_command env ctx command) ∧
    ((env.fs.pathExists (AgentTerm.resolveCdTarget env.fs
        ctx.current_directory (pyStrip (strDrop command 3))) &&
      env.fs.isDir (AgentTerm.resolveCdTarget env.fs ctx.current_directory
        (pyStrip (strDrop command 3)))) = false →
      ((AgentTerm.execute_command env ctx command).2).current_directory =
        ctx.current_directory) := by
  have hdir := fun r => (add_command_preserves_dir_and_errors ctx r).1
  unfold AgentTerm.execute_command
  rw [hcd]
  simp only [if_true, ite_true, ite_false]
  rw [if_pos hpath]
  have hctx : ∀ r : AgentTerm.AgentResult,
      (if ctx.current_task.isSome = true then
        ctx.add_command_to_current_task r else ctx).current_directory =
      ctx.current_directory := by
    intro r
    split
    · exact hdir r
    · rfl
  rw [hctx]
  refine ⟨trivial, rfl, rfl, fun _ => trivial, ?_⟩
  intro hmiss
  unfold AgentTerm.change_directory
  simp [hmiss]

/-- Environment for the C10 witness over the empty filesystem. -/
def c10env : AgentTerm.AgentEnv :=
  { fs := emptyFs, run := fun _ => .raised "unreachable" 0, elapsedCd := 0,
    timestamp := "t0" }

/-- Witness for C10: `cd /nope` against a filesystem with no directories
still reports exit code 0 and a `Changed directory to` message, and leaves
the working directory at `/w`. -/
theorem C10_cd_interception_witness :
    (AgentTerm.execute_command c10env (AgentTerm.AgentContext.fresh "/w")
      "cd /nope").1.exit_code = 0 ∧
    (AgentTerm.execute_command c10env (AgentTerm.AgentContext.fresh "/w")
      "cd /nope").1.stdout = "Changed directory to /w" ∧
    ((AgentTerm.execute_command c10env (AgentTerm.AgentContext.fresh "/w")
      "cd /nope").2).current_directory = "/w" := by
  have h := C10_cd_interception c10env (AgentTerm.AgentContext.fresh "/w")
    "cd /nope" (by decide) (by decide)
  refine ⟨h.1, ?_, ?_⟩
  · exact h.2.1.trans (by decide)
  · exact h.2.2.2.2 (by decide)

/-- A context that has already recorded five errors (more than the claimed
3-5 cap), oldest first. -/
def c6ctx : AgentTerm.AgentContext :=
  { AgentTerm.AgentContext.fresh "/w" with
    recent_errors := [("c1", "e1"), ("c2", "e2"), ("c3", "e3"),
      ("c4", "e4"), ("c5", "e5")] }

/-- Environment for C6: every command fails with exit code 1 and one
stderr line. -/
def c6env : AgentTerm.AgentEnv :=
  { fs := emptyFs, run := fun _ => .streamed [] ["boom"] 1 1,
    elapsedCd := 0, timestamp := "t0" }

/-- C6 counterexample: recording a sixth error grows the recent-error list
to length 6 — nothing is evicted at any capacity — and the list is ordered
oldest-first (the new entry is appended at the end), so it is not a
most-recent-first ring of bounded capacity. -/
theorem C6_recent_errors_unbounded :
    ((AgentTerm.execute_command c6env c6ctx "badcmd").2).recent_errors.length
      = 6 ∧
    ((AgentTerm.execute_command c6env c6ctx "badcmd").2).recent_errors.headD
      ("", "") = ("c1", "e1") ∧
    ((AgentTerm.execute_command c6env c6ctx "badcmd").2).recent_errors.getLastD
      ("", "") = ("badcmd", "boom") := by
  decide

/-- C6 as amended: the recent-error list is unbounded and append-only: a
failed command with non-empty stderr (or a spawn exception) appends one
(command, error-text) pair at the END — most-recent-last — and every
existing entry is preserved, so nothing is ever evicted. -/
theorem C6_recent_errors_append_only :
    (∀ (env : AgentTerm.AgentEnv) (ctx : AgentTerm.AgentContext)
        (command : String) (outLines errLines : List String) (code : Int)
        (dur : Nat),
      env.run command = .streamed outLines errLines code dur →
      strStartsWith (pyStrip command) "cd " = false →
      code ≠ 0 → errLines ≠ [] →
      ((AgentTerm.execute_command env ctx command).2).recent_errors =
        ctx.recent_errors ++ [(command, "\n".intercalate errLines)]) ∧
    (∀ (env : AgentTerm.AgentEnv) (ctx : AgentTerm.AgentContext)
        (command msg : String) (dur : Nat),
      env.run command = .raised msg dur →
      strStartsWith (pyStrip command) "cd " = false →
      ((AgentTerm.execute_command env ctx command).2).recent_errors =
        ctx.recent_errors ++
          [(command, "Exception while executing command: " ++ msg)]) := by
  have herr := fun (ctx : AgentTerm.AgentContext)
    (r : AgentTerm.AgentResult) =>
    (add_command_preserves_dir_and_errors ctx r).2
  constructor
  · intro env ctx command outLines errLines code dur hrun hcd hcode herrs
    have hA : ∀ r : AgentTerm.AgentResult,
        (if ctx.current_task.isSome = true then
          ctx.add_command_to_current_task r else ctx).recent_errors =
        ctx.recent_errors := by
      intro r
      split
      · exact herr ctx r
      · rfl
    unfold AgentTerm.execute_command
    rw [hcd]
    simp [hrun, hcode, herrs, herr, hA]
  · intro env ctx command msg dur hrun hcd
    have hA : ∀ r : AgentTerm.AgentResult,
        (if ctx.current_task.isSome = true then
          ctx.add_command_to_current_task r else ctx).recent_errors =
        ctx.recent_errors := by
      intro r
      split
      · exact herr ctx r
      · rfl
    unfold AgentTerm.execute_command
    rw [hcd]
    simp [hrun, herr, hA]

/-- Witness for C6's amended theorem on the concrete failing command. -/
theorem C6_recent_errors_append_only_witness :
    ((AgentTerm.execute_command c6env c6ctx "badcmd").2).recent_errors =
      [("c1", "e1"), ("c2", "e2"), ("c3", "e3"), ("c4", "e4"), ("c5", "e5"),
       ("badcmd", "boom")] := by
  have h := C6_recent_errors_append_only.1 c6env c6ctx "badcmd" [] ["boom"]
    1 1 rfl (by decide) (by decide) (by decide)
  exact h.trans (by decide)

/-- A context whose root task has just been completed. -/
def c4ctx2 : AgentTerm.AgentContext :=
  ((((AgentTerm.AgentContext.fresh "/w").start_task "todo" 0).1)).complete_current_task
    "done" 1

/-- C4 counterexample: completing a root task (a task with no parent) does
NOT leave the current-task pointer null — the pointer stays on the
completed root (`complete_current_task` reassigns the pointer only when a
parent exists). -/
theorem C4_root_completion_keeps_pointer :
    c4ctx2.current_task.isSome = true ∧
    c4ctx2.current_task.map (fun z => z.focus.core.task_id) = some "1" ∧
    c4ctx2.current_task.map (fun z => z.focus.core.status) =
      some AgentTerm.TaskStatus.completed := by
  exact ⟨rfl, rfl, rfl⟩

/-- C4 as amended: completing (or failing) the current task marks it
completed (failed) and, when it has a parent, moves the pointer to exactly
that parent; completing or failing a root task leaves the pointer on the
now-terminal root itself rather than null. -/
theorem C4_pointer_moves_to_parent (ctx : AgentTerm.AgentContext)
    (z : AgentTerm.TaskZipper) (out err : String) (now : Nat)
    (hcur : ctx.current_task = some z) :
    (∀ (f : AgentTerm.TaskFrame) (rest : List AgentTerm.TaskFrame),
      z.frames = f :: rest →
      (ctx.complete_current_task out now).current_task =
        some { frames := rest,
               focus := .node f.core (f.elder ++ [z.focus.complete now out]) } ∧
      (ctx.fail_current_task err now).current_task =
        some { frames := rest,
               focus := .node f.core (f.elder ++ [z.focus.fail now err]) }) ∧
    (z.frames = [] →
      (ctx.complete_current_task out now).current_task =
        some { frames := [], focus := z.focus.complete now out } ∧
      (ctx.fail_current_task err now).current_task =
        some { frames := [], focus := z.focus.fail now err }) := by
  obtain ⟨zf, zfocus⟩ := z
  constructor
  · intro f rest hf
    simp only at hf
    subst hf
    constructor
    · unfold AgentTerm.AgentContext.complete_current_task
      rw [hcur]
    · unfold AgentTerm.AgentContext.fail_current_task
      rw [hcur]
  · intro hroot
    simp only at hroot
    subst hroot
    constructor
    · unfold AgentTerm.AgentContext.complete_current_task
      rw [hcur]
    · unfold AgentTerm.AgentContext.fail_current_task
      rw [hcur]

/-- The scalar fields of the root task of the C4 witness context. -/
def c4rootCore : AgentTerm.TaskCore :=
  { task_id := "1", description := "t", status := .in_progress,
    start_time := some 0, end_time := none, command_history := [],
    output := "", error := "" }

/-- The zipper denoting the started subtask `1.1` under root `1`. -/
def c4zip : AgentTerm.TaskZipper :=
  { frames := [{ core := c4rootCore, elder := [] }],
    focus := .node
      { task_id := "1.1", description := "s", status := .in_progress,
        start_time := some 1, end_time := none, command_history := [],
        output := "", error := "" } [] }

/-- The context of the C4 witness: root task `1` with started subtask
`1.1` as the current task. -/
def c4sub : AgentTerm.AgentContext :=
  (((((AgentTerm.AgentContext.fresh "/w").start_task "t" 0).1)).start_subtask
    "s" 1).1

/-- Witness for C4's amended theorem: completing the subtask `1.1` moves
the pointer to its parent root `1`, carrying the completed child. -/
theorem C4_pointer_moves_to_parent_witness :
    (c4sub.complete_current_task "ok" 2).current_task =
      some { frames := [],
             focus := .node c4rootCore
               ([] ++ [c4zip.focus.complete 2 "ok"]) } := by
  exact ((C4_pointer_moves_to_parent c4sub c4zip "ok" "err" 2 rfl).1
    { core := c4rootCore, elder := [] } [] rfl).1

/-- Placeholder node for indexed access into subtask lists; every use is
bounds-guarded. -/
def dummyTask : AgentTerm.TaskState := AgentTerm.TaskState.fresh "" ""

/-- The id invariant of a node's children: the child at 0-based position
`i` carries the parent's id followed by `.` and the 1-based position
`i + 1`. -/
def childIdsOk (t : AgentTerm.TaskState) : Prop :=
  ∀ i, i < t.subtasks.length →
    ((t.subtasks.getD i dummyTask).core.task_id =
      t.core.task_id ++ "." ++ toString (i + 1))

/-- C8: `add_subtask` appends the new child at the end, gives it the id
`parent.id ++ "." ++ (1-based position among the parent's subtasks)`,
preserves the parent's own fields and the positional id invariant of all
existing children, and no operation of the embedding ever rewrites an
assigned id (`start`, `complete`, `fail` and `add_command` all keep
`task_id` and the subtask list unchanged). -/
theorem C8_subtask_id_formation (t : AgentTerm.TaskState) (d : String) :
    ((t.add_subtask d).1).subtasks = t.subtasks ++ [(t.add_subtask d).2] ∧
    ((t.add_subtask d).2).core.task_id =
      t.core.task_id ++ "." ++ toString (t.subtasks.length + 1) ∧
    ((t.add_subtask d).1).core = t.core ∧
    (childIdsOk t → childIdsOk (t.add_subtask d).1) ∧
    (∀ now : Nat, (t.start now).core.task_id = t.core.task_id ∧
      (t.start now).subtasks = t.subtasks) ∧
    (∀ (now : Nat) (out : String),
      (t.complete now out).core.task_id = t.core.task_id ∧
      (t.complete now out).subtasks = t.subtasks) ∧
    (∀ (now : Nat) (err : String),
      (t.fail now err).core.task_id = t.core.task_id ∧
      (t.fail now err).subtasks = t.subtasks) ∧
    (∀ r : AgentTerm.AgentResult,
      (t.add_command r).core.task_id = t.core.task_id ∧
      (t.add_command r).subtasks = t.subtasks) := by
  obtain ⟨core, subs⟩ := t
  refine ⟨rfl, rfl, rfl, ?_, fun _ => ⟨rfl, rfl⟩, fun _ _ => ⟨rfl, rfl⟩,
    fun _ _ => ⟨rfl, rfl⟩, fun _ => ⟨rfl, rfl⟩⟩
  intro h i hi
  simp only [AgentTerm.TaskState.add_subtask, AgentTerm.TaskState.subtasks,
    AgentTerm.TaskState.core, List.length_append, List.length_singleton] at hi ⊢
  rcases Nat.lt_or_ge i subs.length with hlt | hge
  · rw [List.getD_append _ _ _ _ hlt]
    exact h i hlt
  · have hieq : i = subs.length := by omega
    subst hieq
    rw [List.getD_append_right _ _ _ _ hge]
    simp [AgentTerm.TaskState.fresh, AgentTerm.TaskState.core]

/-- Witness for C8 at a concrete parent node with one existing child: the
second child of root `3` is named `3.2`, and the id invariant holds of the
resulting node. -/
theorem C8_subtask_id_formation_witness :
    ((((AgentTerm.TaskState.fresh "3" "root").add_subtask "a").1.add_subtask
      "b").2).core.task_id = "3.2" ∧
    (((((AgentTerm.TaskState.fresh "3" "root").add_subtask "a").1.add_subtask
      "b").1).subtasks.getD 1 dummyTask).core.task_id = "3.2" := by
  have h2 := C8_subtask_id_formation
    ((AgentTerm.TaskState.fresh "3" "root").add_subtask "a").1 "b"
  have hOk : childIdsOk ((AgentTerm.TaskState.fresh "3" "root").add_subtask
      "a").1 := by
    intro i hi
    simp [AgentTerm.TaskState.fresh, AgentTerm.TaskState.add_subtask,
      AgentTerm.TaskState.subtasks] at hi
    subst hi
    decide
  refine ⟨h2.2.1.trans (by decide), ?_⟩
  have hinv := h2.2.2.2.1 hOk 1 (by decide)
  exact hinv.trans (by decide)

/-- C5 counterexample: the model proposes exactly the command that just
failed (`rm temp.txt`) for a task that mentions neither chrome nor
process/taskkill, and `get_ai_response` returns that identical command
unchanged instead of substituting a diagnostic fallback. -/
theorem C5_identical_fallback_returned :
    TermAssist.get_ai_response "delete temp file" (some "rm temp.txt")
      "rm temp.txt" = Except.ok ["rm temp.txt"] := by
  rfl

/-- C5 as amended: a proposed first command equal (case-insensitively,
after trimming) to the failed command is replaced by a hardcoded `wmic`
diagnostic fallback only in the special cases — the task mentions chrome
together with close/kill/stop, or the failed command mentions
process/taskkill. Outside those cases the proposed commands are returned
unchanged, including a first command identical to the failed one. -/
theorem C5_fallback_substitution_scoped :
    (∀ task fc resp : String,
      (TermAssist.strContains (strToLower task) "chrome" &&
        (TermAssist.strContains (strToLower task) "close" ||
         TermAssist.strContains (strToLower task) "kill" ||
         TermAssist.strContains (strToLower task) "stop")) = false →
      (TermAssist.strContains (strToLower fc) "process" ||
       TermAssist.strContains (strToLower fc) "taskkill") = false →
      TermAssist.get_ai_response task (some fc) resp =
        .ok (TermAssist.candidateCommands task resp)) ∧
    (∀ task fc resp : String,
      (TermAssist.strContains (strToLower task) "chrome" &&
        (TermAssist.strContains (strToLower task) "close" ||
         TermAssist.strContains (strToLower task) "kill" ||
         TermAssist.strContains (strToLower task) "stop")) = true →
      (!(TermAssist.candidateCommands task resp).isEmpty) = true →
      strToLower (pyStrip ((TermAssist.candidateCommands task resp).headD ""))
        = strToLower (pyStrip fc) →
      TermAssist.get_ai_response task (some fc) resp =
        .ok ["wmic process where name=\x27chrome.exe\x27 delete"]) := by
  constructor
  · intro task fc resp hchrome hproc
    simp only [TermAssist.get_ai_response]
    by_cases hm : (!(TermAssist.candidateCommands task resp).isEmpty &&
        (strToLower (pyStrip ((TermAssist.candidateCommands task resp).headD
          "")) == strToLower (pyStrip fc))) = true
    · rw [if_pos hm]
      simp [hchrome, hproc]
    · rw [if_neg hm]
  · intro task fc resp hchrome hne hhead
    simp only [TermAssist.get_ai_response]
    have hm : (!(TermAssist.candidateCommands task resp).isEmpty &&
        (strToLower (pyStrip ((TermAssist.candidateCommands task resp).headD
          "")) == strToLower (pyStrip fc))) = true := by
      rw [hne, hhead]
      simp
    rw [if_pos hm, if_pos hchrome]

/-- Witness for C5's amended theorem: outside the special cases the
identical proposal passes through; inside the chrome case the hardcoded
fallback is substituted. -/
theorem C5_fallback_substitution_scoped_witness :
    TermAssist.get_ai_response "delete temp file" (some "rm temp.txt")
      "rm temp.txt" = .ok ["rm temp.txt"] ∧
    TermAssist.get_ai_response "close chrome" (some "start chrome.exe")
      "start chrome.exe" =
      .ok ["wmic process where name=\x27chrome.exe\x27 delete"] := by
  constructor
  · exact (C5_fallback_substitution_scoped.1 "delete temp file" "rm temp.txt"
      "rm temp.txt" (by decide) (by decide)).trans (by rfl)
  · exact C5_fallback_substitution_scoped.2 "close chrome" "start chrome.exe"
      "start chrome.exe" (by decide) (by decide) (by decide)
